import Mathlib

/-!
Shallow embedding of the `kstat` Go package (`kstat_solaris.go`), a Go
wrapper over the Solaris kstat(3kstat) facility.  The native kstat
library (kstat_open / kstat_close / kstat_lookup / kstat_read /
chain traversal) is an external collaborator: it is modelled as an
explicit environment of native records, and each native read's outcome
(success with a fresh snaptime and data, or failure) is an explicit
parameter of the operations that perform one.

Go pointers become natural-number identities: a native `kstat_t`
pointer is an index into the environment's chain, and a Go `*KStat`
reference is an index into a heap of wrapper objects, so that Go
reference equality is equality of heap indices.
-/

namespace KstatGo

/-! ### Named-statistic data-type tags (values from sys/kstat.h,
mirroring the Go constants `CharData`, `Int32`, `Uint32`, `Int64`,
`Uint64`, `String`).  The Go constant named `String` is rendered
`StringData` here because `String` is taken in Lean. -/

def CharData : Nat := 0
def Int32 : Nat := 1
def Uint32 : Nat := 2
def Int64 : Nat := 3
def Uint64 : Nat := 4
def StringData : Nat := 9

/-! ### KStat collection types (KSTAT_TYPE_*). -/

def RawStat : Nat := 0
def NamedStat : Nat := 1
def IntrStat : Nat := 2
def IoStat : Nat := 3
def TimerStat : Nat := 4

/-- A raw `kstat_named_t` record.  The C struct holds a name, a
`data_type` byte and a 16-byte value union; only the union member
selected by `data_type` is ever read (via the cgo helpers
`get_named_char`, `get_named_int`, `get_named_uint`, and `GoStringN`
over the inline block), so the union's members are modelled as
separate fields.  Strings are byte lists (`List Nat`), since the C
side deals in raw, possibly unterminated bytes. -/
structure RawNamed where
  /-- Field `knp.name`, the statistic's name. -/
  name : String
  /-- Field `knp.data_type`. -/
  data_type : Nat
  /-- the 16 inline bytes `knp.value.c`, read for `CharData`. -/
  value_c : List Nat
  /-- Field `knp.value.i32`, read when `data_type = Int32`. -/
  value_i32 : Int
  /-- Field `knp.value.ui32`, read when `data_type = Uint32`. -/
  value_ui32 : Nat
  /-- Field `knp.value.i64`, read when `data_type = Int64`. -/
  value_i64 : Int
  /-- Field `knp.value.ui64`, read when `data_type = Uint64`. -/
  value_ui64 : Nat
  /-- the bytes at `knp.value.str.addr.ptr` (guaranteed
  null-terminated per sys/kstat.h), read for `StringData`. -/
  value_str : List Nat
deriving Repr, DecidableEq

/-- Model of `C.GoString`: take bytes up to (excluding) the first null byte. -/
def goString : List Nat → List Nat
  | [] => []
  | b :: rest => if b = 0 then [] else b :: goString rest

/-- Model of `C.GoStringN` (`runtime.gostringn`): copy exactly `n`
bytes, embedded null bytes included.  Note this is the explicit-length
converter — only `C.GoString` stops at a null byte; the source's
comment at `newNamed` believes `GoStringN` does "up to", but it does
not. -/
def goStringN (l : List Nat) (n : Nat) : List Nat :=
  List.take n l

/-- cgo helper `get_named_int`: `data_type == KSTAT_DATA_INT32 ?
value.i32 : value.i64`. -/
def get_named_int (knp : RawNamed) : Int :=
  if knp.data_type = Int32 then knp.value_i32 else knp.value_i64

/-- cgo helper `get_named_uint`: `data_type == KSTAT_DATA_UINT32 ?
value.ui32 : value.ui64`. -/
def get_named_uint (knp : RawNamed) : Nat :=
  if knp.data_type = Uint32 then knp.value_ui32 else knp.value_ui64

/-- Go struct `Named`: one decoded named statistic.  `Type` is a Lean
keyword so that field is `typ`; the back-pointer `Named.KStat` is the
heap index `kstatRef` of the parent wrapper. -/
structure Named where
  Name : String
  typ : Nat
  StringVal : List Nat
  IntVal : Int
  UintVal : Nat
  kstatRef : Nat
deriving Repr, DecidableEq

/-- Go `newNamed`: decode one raw record into a `Named`, switching on
the declared data type.  The Go code panics on an unknown tag; the
panic is modelled as `none`. -/
def newNamed (k : Nat) (knp : RawNamed) : Option Named :=
  let nm := knp.name
  let tp := knp.data_type
  if tp = StringData then
    some { Name := nm, typ := tp, StringVal := goString knp.value_str,
           IntVal := 0, UintVal := 0, kstatRef := k }
  else if tp = CharData then
    some { Name := nm, typ := tp, StringVal := goStringN knp.value_c 16,
           IntVal := 0, UintVal := 0, kstatRef := k }
  else if tp = Int32 ∨ tp = Int64 then
    some { Name := nm, typ := tp, StringVal := [],
           IntVal := get_named_int knp, UintVal := 0, kstatRef := k }
  else if tp = Uint32 ∨ tp = Uint64 then
    some { Name := nm, typ := tp, StringVal := [],
           IntVal := 0, UintVal := get_named_uint knp, kstatRef := k }
  else
    none

/-! ### Native environment (the external kstat library's state). -/

/-- A native `kstat_t` record as the Go code observes it through the
kstat chain.  `ks_data` models the `ks_data != NULL` test; `records`
is the in-memory named-record array exposed after a read, with
`ks_ndata` its declared count. -/
structure NativeKStat where
  ks_module : String
  ks_instance : Int
  ks_name : String
  ks_class : String
  ks_type : Nat
  ks_crtime : Int
  ks_snaptime : Int
  ks_data : Bool
  ks_ndata : Nat
  records : List RawNamed
deriving Repr, DecidableEq

/-- Default `NativeKStat`, used only as the out-of-range fallback of
list lookups (never reached when callers pass valid chain indices). -/
def ks0 : NativeKStat :=
  { ks_module := "", ks_instance := 0, ks_name := "", ks_class := "",
    ks_type := 0, ks_crtime := 0, ks_snaptime := 0, ks_data := false,
    ks_ndata := 0, records := [] }

/-- The native subsystem's state: the kstat chain, in chain order.  A
native `kstat_t` pointer is a chain index; kstat guarantees the chain
(hence pointer identity) is stable over the life of one open handle. -/
structure NativeEnv where
  chain : List NativeKStat
deriving Repr, DecidableEq

/-- Dereference a native pointer. -/
def NativeEnv.getKs (e : NativeEnv) (p : Nat) : NativeKStat :=
  e.chain.getD p ks0

/-- Store through a native pointer. -/
def NativeEnv.setKs (e : NativeEnv) (p : Nat) (ks : NativeKStat) : NativeEnv :=
  ⟨e.chain.set p ks⟩

/-- Outcome of one native `kstat_read` call, supplied by the
environment: `none` is failure (return -1); `some (t, recs)` is
success, setting the record's `ks_snaptime` to the `gethrtime` reading
`t` and (re)populating its data. -/
def ReadOutcome : Type := Option (Int × List RawNamed)

/-- Go struct `KStat`: the wrapper for one collection.  `Type` is a
Lean keyword so that field is `typ`; `ksp` is the native pointer
(chain index); the `tok` back-pointer is implicit because the model
state carries a single token. -/
structure KStat where
  Module : String
  Instance : Int
  Name : String
  Class : String
  typ : Nat
  Crtime : Int
  Snaptime : Int
  ksp : Nat
deriving Repr, DecidableEq

/-- Default `KStat`, the out-of-range fallback of heap lookups. -/
def kstat0 : KStat :=
  { Module := "", Instance := 0, Name := "", Class := "", typ := 0,
    Crtime := 0, Snaptime := 0, ksp := 0 }

/-- The whole mutable state seen by the Go code: the native
environment, one `Token`, and the heap of `KStat` wrapper objects.
`kcOpen` is `t.kc != nil`; `ksm` is the token's `kstat_t → *KStat`
map as an association list (native pointer, heap index); `heap` is
the allocated wrappers, a Go `*KStat` being an index into it, so two
wrapper references are the same Go pointer iff the indices are
equal. -/
structure KState where
  env : NativeEnv
  kcOpen : Bool
  ksm : List (Nat × Nat)
  heap : List KStat
deriving Repr, DecidableEq

/-- Map lookup in `t.ksm`. -/
def lookupKsm (m : List (Nat × Nat)) (p : Nat) : Option Nat :=
  (m.find? (fun e => e.1 = p)).map (fun e => e.2)

/-- Go `newKStat`: return the cached wrapper for the native pointer
`p` if the token's map has one, else construct a wrapper from the
native record's fields, cache and return it.  Returns the wrapper's
heap index (its Go pointer) and the new state. -/
def newKStat (s : KState) (p : Nat) : Nat × KState :=
  match lookupKsm s.ksm p with
  | some w => (w, s)
  | none =>
    let ks := s.env.getKs p
    let kst : KStat :=
      { Module := ks.ks_module, Instance := ks.ks_instance,
        Name := ks.ks_name, Class := ks.ks_class, typ := ks.ks_type,
        Crtime := ks.ks_crtime, Snaptime := ks.ks_snaptime, ksp := p }
    (s.heap.length,
     { s with heap := s.heap ++ [kst],
              ksm := (p, s.heap.length) :: s.ksm })

/-- Errors returned by the Go code.  The Go strings are:
`closedToken` = "Token not valid or closed" / "invalid KStat or
closed token", `lookupFailed` = the errno from `kstat_lookup` /
`kstat_data_lookup`, `readFailed` = the errno from `kstat_read`,
`notNamed` = "kstat ... is not a named kstat", `closeFailed` = the
errno from `kstat_close`; `nilNamed` and `unknownType` model the two
panics in `AllNamed` / `newNamed`. -/
inductive KError where
  | closedToken
  | lookupFailed
  | readFailed
  | notNamed
  | closeFailed
  | nilNamed
  | unknownType
deriving Repr, DecidableEq

/-- Go `Token.Close`: a no-op returning nil on an already-closed
token; otherwise `kstat_close` the handle (whose success `nativeOk`
the environment supplies), nil out `t.kc` and clear `t.ksm`. -/
def Token.Close (s : KState) (nativeOk : Bool) : Option KError × KState :=
  if s.kcOpen = false then (none, s)
  else
    ((if nativeOk then none else some .closeFailed),
     { s with kcOpen := false, ksm := [] })

/-- The chain traversal of Go `Token.All`, calling `newKStat` on each
chain element in order. -/
def allFrom (s : KState) : List Nat → List Nat × KState
  | [] => ([], s)
  | p :: ps =>
    let r := newKStat s p
    let rest := allFrom r.2 ps
    (r.1 :: rest.1, rest.2)

/-- Go `Token.All`: empty list on a closed token, else one wrapper per
chain element in chain order. -/
def Token.All (s : KState) : List Nat × KState :=
  if s.kcOpen = false then ([], s)
  else allFrom s (List.range s.env.chain.length)

/-- Whether a chain record matches a `kstat_lookup` query.  The Go
code turns `""` into a NULL C string (`maybeCString`) and native
`kstat_lookup` skips a NULL module/name and an instance of -1, taking
the first chain entry matching all supplied criteria. -/
def ksMatch (ks : NativeKStat) (module : String) (inst : Int)
    (name : String) : Bool :=
  (module = "" || ks.ks_module = module) &&
  (inst = -1 || ks.ks_instance = inst) &&
  (name = "" || ks.ks_name = name)

/-- Native `kstat_lookup`: pointer to (index of) the first matching
chain entry, or `none` (NULL, with errno). -/
def kstat_lookup (e : NativeEnv) (module : String) (inst : Int)
    (name : String) : Option Nat :=
  List.findIdx? (fun ks => ksMatch ks module inst name) e.chain

/-- Native `kstat_read` with the environment-supplied outcome: failure
returns -1 (modelled `false`) and changes nothing the Go code can see;
success updates the record's snaptime and data in place. -/
def kstat_read (s : KState) (p : Nat) : ReadOutcome → Bool × KState
  | none => (false, s)
  | some (t, recs) =>
    let ks := s.env.getKs p
    let ks' := { ks with ks_snaptime := t, ks_data := true,
                         ks_ndata := recs.length, records := recs }
    (true, { s with env := s.env.setKs p ks' })

/-- Go `KStat.invalid`: `k == nil || k.ksp == nil || k.tok == nil ||
k.tok.kc == nil`.  A dangling/nil Go reference is a heap index out of
range; a non-nil wrapper always has its `ksp` and `tok` set, so the
remaining test is the closed token. -/
def KStat.invalid (s : KState) (w : Nat) : Bool :=
  s.heap.length ≤ w || s.kcOpen = false

/-- Go `KStat.Refresh`: reject an invalid wrapper or closed token,
else `kstat_read` the native record and, on success only, copy the
native `ks_snaptime` into the wrapper's `Snaptime`. -/
def KStat.Refresh (s : KState) (w : Nat) (outcome : ReadOutcome) :
    Option KError × KState :=
  if KStat.invalid s w then (some .closedToken, s)
  else
    let k := s.heap.getD w kstat0
    let r := kstat_read s k.ksp outcome
    if r.1 = false then (some .readFailed, r.2)
    else
      let t := (r.2.env.getKs k.ksp).ks_snaptime
      (none, { r.2 with heap := r.2.heap.set w { k with Snaptime := t } })

/-- Go `Token.Lookup`: reject a closed token; `kstat_lookup`; on a
native miss return the error; else `newKStat` then an immediate
`Refresh`, returning no descriptor when the refresh fails (while the
`ksm` cache entry made by `newKStat` is kept). -/
def Token.Lookup (s : KState) (module : String) (inst : Int)
    (name : String) (outcome : ReadOutcome) :
    Option Nat × Option KError × KState :=
  if s.kcOpen = false then (none, some .closedToken, s)
  else
    match kstat_lookup s.env module inst name with
    | none => (none, some .lookupFailed, s)
    | some p =>
      let r := newKStat s p
      let rf := KStat.Refresh r.2 r.1 outcome
      match rf.1 with
      | some e => (none, some e, rf.2)
      | none => (some r.1, none, rf.2)

/-- Go `KStat.setup`: validity check, named-type check, and a lazy
initial `Refresh` when the native record has no data yet. -/
def KStat.setup (s : KState) (w : Nat) (outcome : ReadOutcome) :
    Option KError × KState :=
  if KStat.invalid s w then (some .closedToken, s)
  else
    let k := s.heap.getD w kstat0
    if (s.env.getKs k.ksp).ks_type ≠ NamedStat then (some .notNamed, s)
    else if (s.env.getKs k.ksp).ks_data = false then KStat.Refresh s w outcome
    else (none, s)

/-- cgo helper `get_nth_named`: NULL unless the record exists, has
data, is named, and `n` is in range; else the address of the `n`-th
`kstat_named_t`. -/
def get_nth_named (s : KState) (p : Nat) (n : Nat) : Option RawNamed :=
  let ks := s.env.getKs p
  if ks.ks_data = false ∨ ks.ks_type ≠ NamedStat ∨ ks.ks_ndata ≤ n then none
  else ks.records[n]?

/-- The loop of Go `KStat.AllNamed`, decoding records `i, i+1, ...`
for `n` steps.  The two panics (`get_nth_named` NULL, unknown stat
type in `newNamed`) are modelled as error results: either way no
partial list escapes. -/
def allNamedLoop (s : KState) (p : Nat) (w : Nat) :
    Nat → Nat → Except KError (List Named)
  | _, 0 => .ok []
  | i, n + 1 =>
    match get_nth_named s p i with
    | none => .error .nilNamed
    | some r =>
      match newNamed w r with
      | none => .error .unknownType
      | some nd =>
        match allNamedLoop s p w (i + 1) n with
        | .error e => .error e
        | .ok l => .ok (nd :: l)

/-- Go `KStat.AllNamed`: `setup`, then decode every record in native
storage order. -/
def KStat.AllNamed (s : KState) (w : Nat) (outcome : ReadOutcome) :
    Except KError (List Named) × KState :=
  match KStat.setup s w outcome with
  | (some e, s₁) => (.error e, s₁)
  | (none, s₁) =>
    let k := s₁.heap.getD w kstat0
    (allNamedLoop s₁ k.ksp w 0 ((s₁.env.getKs k.ksp).ks_ndata), s₁)

/-- Go `KStat.String()`: `"module:instance:name (class)"`, a pure
function of the wrapper's copied fields. -/
def KStat.display (k : KStat) : String :=
  k.Module ++ ":" ++ toString k.Instance ++ ":" ++ k.Name ++
  " (" ++ k.Class ++ ")"

/-- Go `Named.String()`: `"module:instance:name:statistic"`, reading
the parent wrapper's copied fields through the back-pointer. -/
def Named.display (s : KState) (nd : Named) : String :=
  let k := s.heap.getD nd.kstatRef kstat0
  k.Module ++ ":" ++ toString k.Instance ++ ":" ++ k.Name ++ ":" ++ nd.Name

/-! ### Decoder lemmas. -/

/-- C1: for each of the six known data-type tags, `newNamed` succeeds
and fills exactly the slot the tag selects — the string slot for
`StringData`/`CharData`, the signed slot (via `get_named_int`, which
normalizes `Int32`/`Int64` to 64 bits) for the signed tags, the
unsigned slot likewise for the unsigned tags — leaving the other two
slots at their zero/empty values. -/
theorem newNamed_decode_complete (w : Nat) (r : RawNamed)
    (h : r.data_type = CharData ∨ r.data_type = Int32 ∨
         r.data_type = Uint32 ∨ r.data_type = Int64 ∨
         r.data_type = Uint64 ∨ r.data_type = StringData) :
    ∃ nd, newNamed w r = some nd ∧ nd.Name = r.name ∧
      nd.typ = r.data_type ∧ nd.kstatRef = w ∧
      ((r.data_type = StringData →
          nd.StringVal = goString r.value_str ∧ nd.IntVal = 0 ∧
          nd.UintVal = 0) ∧
       (r.data_type = CharData →
          nd.StringVal = goStringN r.value_c 16 ∧ nd.IntVal = 0 ∧
          nd.UintVal = 0) ∧
       ((r.data_type = Int32 ∨ r.data_type = Int64) →
          nd.IntVal = get_named_int r ∧ nd.StringVal = [] ∧
          nd.UintVal = 0) ∧
       ((r.data_type = Uint32 ∨ r.data_type = Uint64) →
          nd.UintVal = get_named_uint r ∧ nd.StringVal = [] ∧
          nd.IntVal = 0)) := by
  rcases h with h | h | h | h | h | h
  · have hd : newNamed w r = some
        { Name := r.name, typ := r.data_type,
          StringVal := goStringN r.value_c 16, IntVal := 0,
          UintVal := 0, kstatRef := w } := by
      simp [newNamed, h, CharData, StringData]
    exact ⟨_, hd, rfl, rfl, rfl, by simp [h, CharData, StringData],
           fun _ => ⟨rfl, rfl, rfl⟩,
           by simp [h, CharData, Int32, Int64],
           by simp [h, CharData, Uint32, Uint64]⟩
  · have hd : newNamed w r = some
        { Name := r.name, typ := r.data_type, StringVal := [],
          IntVal := get_named_int r, UintVal := 0, kstatRef := w } := by
      simp [newNamed, h, CharData, Int32, Uint32, Int64, Uint64, StringData]
    exact ⟨_, hd, rfl, rfl, rfl, by simp [h, Int32, StringData],
           by simp [h, Int32, CharData],
           fun _ => ⟨rfl, rfl, rfl⟩,
           by simp [h, Int32, Uint32, Uint64]⟩
  · have hd : newNamed w r = some
        { Name := r.name, typ := r.data_type, StringVal := [],
          IntVal := 0, UintVal := get_named_uint r, kstatRef := w } := by
      simp [newNamed, h, CharData, Int32, Uint32, Int64, Uint64, StringData]
    exact ⟨_, hd, rfl, rfl, rfl, by simp [h, Uint32, StringData],
           by simp [h, Uint32, CharData],
           by simp [h, Uint32, Int32, Int64],
           fun _ => ⟨rfl, rfl, rfl⟩⟩
  · have hd : newNamed w r = some
        { Name := r.name, typ := r.data_type, StringVal := [],
          IntVal := get_named_int r, UintVal := 0, kstatRef := w } := by
      simp [newNamed, h, CharData, Int32, Uint32, Int64, Uint64, StringData]
    exact ⟨_, hd, rfl, rfl, rfl, by simp [h, Int64, StringData],
           by simp [h, Int64, CharData],
           fun _ => ⟨rfl, rfl, rfl⟩,
           by simp [h, Int64, Uint32, Uint64]⟩
  · have hd : newNamed w r = some
        { Name := r.name, typ := r.data_type, StringVal := [],
          IntVal := 0, UintVal := get_named_uint r, kstatRef := w } := by
      simp [newNamed, h, CharData, Int32, Uint32, Int64, Uint64, StringData]
    exact ⟨_, hd, rfl, rfl, rfl, by simp [h, Uint64, StringData],
           by simp [h, Uint64, CharData],
           by simp [h, Uint64, Int32, Int64],
           fun _ => ⟨rfl, rfl, rfl⟩⟩
  · have hd : newNamed w r = some
        { Name := r.name, typ := r.data_type,
          StringVal := goString r.value_str, IntVal := 0,
          UintVal := 0, kstatRef := w } := by
      simp [newNamed, h, StringData]
    exact ⟨_, hd, rfl, rfl, rfl, fun _ => ⟨rfl, rfl, rfl⟩,
           by simp [h, StringData, CharData],
           by simp [h, StringData, Int32, Int64],
           by simp [h, StringData, Uint32, Uint64]⟩

/-- Concrete raw records used by the decoder witnesses. -/
def rawUint32Sample : RawNamed :=
  { name := "idle", data_type := 2, value_c := List.replicate 16 7,
    value_i32 := -3, value_ui32 := 42, value_i64 := -9,
    value_ui64 := 100, value_str := [104, 105, 0] }

/-- Witness for C1 at the `Uint32` tag: the decoder yields a record
with only the unsigned slot live. -/
theorem newNamed_decode_complete_witness :
    ∃ nd, newNamed 0 rawUint32Sample = some nd ∧
      nd.Name = rawUint32Sample.name ∧
      nd.typ = rawUint32Sample.data_type ∧ nd.kstatRef = 0 ∧
      ((rawUint32Sample.data_type = StringData →
          nd.StringVal = goString rawUint32Sample.value_str ∧
          nd.IntVal = 0 ∧ nd.UintVal = 0) ∧
       (rawUint32Sample.data_type = CharData →
          nd.StringVal = goStringN rawUint32Sample.value_c 16 ∧
          nd.IntVal = 0 ∧ nd.UintVal = 0) ∧
       ((rawUint32Sample.data_type = Int32 ∨
         rawUint32Sample.data_type = Int64) →
          nd.IntVal = get_named_int rawUint32Sample ∧
          nd.StringVal = [] ∧ nd.UintVal = 0) ∧
       ((rawUint32Sample.data_type = Uint32 ∨
         rawUint32Sample.data_type = Uint64) →
          nd.UintVal = get_named_uint rawUint32Sample ∧
          nd.StringVal = [] ∧ nd.IntVal = 0)) :=
  newNamed_decode_complete 0 rawUint32Sample (by decide)

/-- Concrete raw `CharData` record whose 16-byte block has its first
null byte at position 3. -/
def rawCharShort : RawNamed :=
  { name := "tag", data_type := 0,
    value_c := [65, 66, 67, 0, 68, 69, 70, 71, 72, 73, 74, 75, 76, 77, 78, 79],
    value_i32 := 0, value_ui32 := 0, value_i64 := 0, value_ui64 := 0,
    value_str := [] }

/-- C3 (refuted at the code): `C.GoStringN` copies exactly its length
argument's bytes, embedded null bytes included, so decoding a
`CharData` record whose first null byte sits at position 3 yields the
whole 16-byte block — a string of length 16 containing the null at
index 3, not a string of length 3.  The stop-at-null behaviour the
spec (and the source's own comment) describe belongs to `C.GoString`
only. -/
theorem charData_embedded_null_kept :
    (newNamed 0 rawCharShort).map (fun nd => nd.StringVal) =
      some rawCharShort.value_c ∧
    rawCharShort.value_c.length = 16 ∧
    rawCharShort.value_c.getD 3 1 = 0 := by
  refine ⟨rfl, rfl, rfl⟩

/-- C4: a raw record whose declared type tag lies outside the six
known kinds makes the decoder abort (the Go code panics, modelled as
`none`): no `Named` with default values is ever produced. -/
theorem newNamed_unknown_tag_fatal (w : Nat) (r : RawNamed)
    (h : r.data_type ≠ CharData ∧ r.data_type ≠ Int32 ∧
         r.data_type ≠ Uint32 ∧ r.data_type ≠ Int64 ∧
         r.data_type ≠ Uint64 ∧ r.data_type ≠ StringData) :
    newNamed w r = none := by
  obtain ⟨h0, h1, h2, h3, h4, h9⟩ := h
  simp [newNamed, h0, h1, h2, h3, h4, h9]

/-- Concrete raw record with the obsolete FLOAT tag (5) for the C4
witness. -/
def rawFloatSample : RawNamed :=
  { name := "f", data_type := 5, value_c := List.replicate 16 0,
    value_i32 := 0, value_ui32 := 0, value_i64 := 0, value_ui64 := 0,
    value_str := [] }

/-- Witness for C4: tag 5 (obsolete FLOAT) makes the decoder abort. -/
theorem newNamed_unknown_tag_fatal_witness :
    newNamed 0 rawFloatSample = none :=
  newNamed_unknown_tag_fatal 0 rawFloatSample (by decide)

/-! ### Identity-cache lemmas. -/

/-- Construction via `newKStat` never touches the native environment or the token's
handle. -/
theorem newKStat_env (s : KState) (p : Nat) :
    (newKStat s p).2.env = s.env ∧ (newKStat s p).2.kcOpen = s.kcOpen := by
  unfold newKStat
  cases h : lookupKsm s.ksm p <;> simp

/-- A cache hit in `newKStat` returns the cached wrapper and leaves
the state untouched. -/
theorem newKStat_cached (s : KState) (p w : Nat)
    (h : lookupKsm s.ksm p = some w) : newKStat s p = (w, s) := by
  simp [newKStat, h]

/-- After `newKStat`, the token's map holds the returned wrapper for
that native pointer. -/
theorem newKStat_caches (s : KState) (p : Nat) :
    lookupKsm (newKStat s p).2.ksm p = some (newKStat s p).1 := by
  unfold newKStat
  cases h : lookupKsm s.ksm p with
  | some w => simpa using h
  | none => simp [lookupKsm]

/-- Construction via `newKStat` preserves every existing cache entry. -/
theorem newKStat_mono (s : KState) (p q w : Nat)
    (h : lookupKsm s.ksm q = some w) :
    lookupKsm (newKStat s p).2.ksm q = some w := by
  unfold newKStat
  cases hp : lookupKsm s.ksm p with
  | some w₂ => simpa using h
  | none =>
    have hne : (p = q) = False := by
      refine eq_false ?_
      intro e
      rw [e, h] at hp
      exact Option.noConfusion hp
    simpa [lookupKsm, hne] using h

/-- Construction via `newKStat` keeps the token invariant that every cached wrapper
index points into the heap. -/
theorem newKStat_wf (s : KState) (p : Nat)
    (hwf : ∀ e ∈ s.ksm, e.2 < s.heap.length) :
    ∀ e ∈ (newKStat s p).2.ksm, e.2 < (newKStat s p).2.heap.length := by
  unfold newKStat
  cases h : lookupKsm s.ksm p with
  | some w => simpa using hwf
  | none =>
    intro e he
    simp only [List.mem_cons] at he
    rcases he with he | he
    · simp [he]
    · have := hwf e he
      simp only [List.length_append, List.length_cons, List.length_nil]
      omega

/-- Under the token invariant, the wrapper index `newKStat` returns is
a valid heap index. -/
theorem newKStat_valid (s : KState) (p : Nat)
    (hwf : ∀ e ∈ s.ksm, e.2 < s.heap.length) :
    (newKStat s p).1 < (newKStat s p).2.heap.length := by
  unfold newKStat
  cases h : lookupKsm s.ksm p with
  | some w =>
    obtain ⟨e, he, hew⟩ : ∃ e, List.find? (fun e => e.1 = p) s.ksm = some e ∧ e.2 = w := by
      simpa [lookupKsm] using h
    have := hwf e (List.mem_of_find?_eq_some he)
    simpa [hew] using this
  | none => simp

/-- Traversal via `allFrom` never touches the native environment or the handle. -/
theorem allFrom_env (l : List Nat) (s : KState) :
    (allFrom s l).2.env = s.env ∧ (allFrom s l).2.kcOpen = s.kcOpen := by
  induction l generalizing s with
  | nil => simp [allFrom]
  | cons p ps ih =>
    simp only [allFrom]
    obtain ⟨h1, h2⟩ := ih (newKStat s p).2
    obtain ⟨g1, g2⟩ := newKStat_env s p
    exact ⟨h1.trans g1, h2.trans g2⟩

/-- Traversal via `allFrom` preserves every existing cache entry. -/
theorem allFrom_mono (l : List Nat) (s : KState) (q w : Nat)
    (h : lookupKsm s.ksm q = some w) :
    lookupKsm (allFrom s l).2.ksm q = some w := by
  induction l generalizing s with
  | nil => simpa [allFrom] using h
  | cons p ps ih =>
    simp only [allFrom]
    exact ih _ (newKStat_mono s p q w h)

/-- One wrapper per chain element. -/
theorem allFrom_length (l : List Nat) (s : KState) :
    (allFrom s l).1.length = l.length := by
  induction l generalizing s with
  | nil => simp [allFrom]
  | cons p ps ih => simp [allFrom, ih]

/-- After an `allFrom` traversal, the cache maps the `i`-th visited
native pointer to the `i`-th returned wrapper. -/
theorem allFrom_result (l : List Nat) (s : KState) :
    ∀ i, i < l.length →
      lookupKsm (allFrom s l).2.ksm (l.getD i 0) =
        some ((allFrom s l).1.getD i 0) := by
  induction l generalizing s with
  | nil =>
    intro i hi
    simp at hi
  | cons p ps ih =>
    intro i hi
    cases i with
    | zero =>
      simp only [allFrom, List.getD_cons_zero]
      exact allFrom_mono ps _ p _ (newKStat_caches s p)
    | succ j =>
      simp only [allFrom, List.getD_cons_succ]
      exact ih _ j (Nat.lt_of_succ_lt_succ hi)

/-- A traversal over already-cached pointers returns the cached
wrappers and changes nothing. -/
theorem allFrom_cached (l : List Nat) (s : KState)
    (h : ∀ p ∈ l, (lookupKsm s.ksm p).isSome = true) :
    allFrom s l = (l.map (fun p => (lookupKsm s.ksm p).getD 0), s) := by
  induction l with
  | nil => simp [allFrom]
  | cons p ps ih =>
    have hp : (lookupKsm s.ksm p).isSome = true := h p (by simp)
    obtain ⟨w, hw⟩ := Option.isSome_iff_exists.mp hp
    have hstep := newKStat_cached s p w hw
    simp only [allFrom, hstep]
    rw [ih (fun q hq => h q (by simp [hq]))]
    simp [hw]

/-- C2: for a fixed open token, calls resolving to the same native
identity return the same wrapper reference.  After one `All`
traversal: (a) a second traversal returns exactly the same references
and leaves the state unchanged, and (b) resolving any chain pointer
`p` again (as `Lookup` does through `newKStat`) returns the very
wrapper the first traversal returned for `p`, allocating nothing — so
at most one wrapper exists per native identity per token. -/
theorem identity_caching (s : KState) (h : s.kcOpen = true) :
    Token.All (Token.All s).2 = ((Token.All s).1, (Token.All s).2) ∧
    (∀ p, p < s.env.chain.length →
      newKStat (Token.All s).2 p =
        (((Token.All s).1).getD p 0, (Token.All s).2)) := by
  have hAll : Token.All s = allFrom s (List.range s.env.chain.length) := by
    simp [Token.All, h]
  obtain ⟨henv, hopen⟩ := allFrom_env (List.range s.env.chain.length) s
  have hres : ∀ p, p < s.env.chain.length →
      lookupKsm (allFrom s (List.range s.env.chain.length)).2.ksm p =
        some ((allFrom s (List.range s.env.chain.length)).1.getD p 0) := by
    intro p hp
    have hp' : p < (List.range s.env.chain.length).length := by simpa using hp
    have := allFrom_result (List.range s.env.chain.length) s p hp'
    rwa [List.getD_eq_getElem _ _ hp', List.getElem_range] at this
  rw [hAll]
  constructor
  · have hopen2 : (allFrom s (List.range s.env.chain.length)).2.kcOpen = true := by
      rw [hopen]; exact h
    have hguard : Token.All (allFrom s (List.range s.env.chain.length)).2 =
        allFrom (allFrom s (List.range s.env.chain.length)).2
          (List.range s.env.chain.length) := by
      simp [Token.All, hopen2, henv]
    rw [hguard, allFrom_cached]
    · refine Prod.ext ?_ rfl
      refine List.ext_getElem ?_ ?_
      · simp [allFrom_length]
      · intro i h1 h2
        have hin : i < s.env.chain.length := by simpa using h1
        have hlen : i < (allFrom s (List.range s.env.chain.length)).1.length := by
          rw [allFrom_length]; simpa using hin
        simp only [List.getElem_map, List.getElem_range]
        rw [hres i hin, List.getD_eq_getElem _ _ hlen]
        simp
    · intro p hp
      have hin : p < s.env.chain.length := by simpa using hp
      rw [hres p hin]
      simp
  · intro p hp
    exact newKStat_cached _ p _ (hres p hp)

/-- Concrete states for the stateful witnesses: a one-element chain
holding a named kstat, before and after one wrapper has been
allocated for it. -/
def sampleChainKs : NativeKStat :=
  { ks_module := "cpu", ks_instance := 0, ks_name := "sys",
    ks_class := "misc", ks_type := 1, ks_crtime := 5, ks_snaptime := 10,
    ks_data := false, ks_ndata := 0, records := [] }

/-- Fresh open-token state over the one-element chain. -/
def sampleState : KState :=
  { env := ⟨[sampleChainKs]⟩, kcOpen := true, ksm := [], heap := [] }

/-- Witness for C2 over the concrete one-element chain. -/
theorem identity_caching_witness :
    Token.All (Token.All sampleState).2 =
      ((Token.All sampleState).1, (Token.All sampleState).2) ∧
    (∀ p, p < sampleState.env.chain.length →
      newKStat (Token.All sampleState).2 p =
        (((Token.All sampleState).1).getD p 0, (Token.All sampleState).2)) :=
  identity_caching sampleState (by decide)

/-! ### Refresh and lifecycle lemmas. -/

/-- A wrapper with a valid heap index under an open token passes the
`invalid` check. -/
theorem invalid_false_of (s : KState) (w : Nat) (h1 : w < s.heap.length)
    (h2 : s.kcOpen = true) : KStat.invalid s w = false := by
  simp only [KStat.invalid, h2, Bool.or_eq_false_iff]
  constructor
  · simpa using Nat.not_le.mpr h1
  · simp

/-- Reading through a pointer just written gives the written record. -/
theorem getKs_setKs_self (e : NativeEnv) (p : Nat) (ks : NativeKStat)
    (h : p < e.chain.length) : (e.setKs p ks).getKs p = ks := by
  have hl : p < (e.chain.set p ks).length := by simpa using h
  show (e.chain.set p ks).getD p ks0 = ks
  rw [List.getD_eq_getElem _ _ hl]
  exact List.getElem_set_self ..

/-- A `Refresh` whose native read succeeds returns no error. -/
theorem refresh_success_none (s : KState) (w : Nat) (t : Int)
    (recs : List RawNamed) (hv : KStat.invalid s w = false) :
    (KStat.Refresh s w (some (t, recs))).1 = none := by
  simp [KStat.Refresh, hv, kstat_read]

/-- With a valid wrapper, a failed native read makes `Refresh` return
the read error with the state untouched (helper shared by several
results below). -/
theorem refresh_read_failure (s : KState) (w : Nat)
    (hv : KStat.invalid s w = false) :
    KStat.Refresh s w none = (some KError.readFailed, s) := by
  simp [KStat.Refresh, hv, kstat_read]

/-- C10: `Refresh` is atomic on failure — with a valid wrapper, a
failed native read returns the read error and leaves the entire state
(in particular the wrapper's `Snaptime` and every other field)
unchanged. -/
theorem refresh_failure_atomic (s : KState) (w : Nat)
    (hv : KStat.invalid s w = false) :
    KStat.Refresh s w none = (some KError.readFailed, s) :=
  refresh_read_failure s w hv

/-- Wrapper present in the cached sample state. -/
def sampleWrapper : KStat :=
  { Module := "cpu", Instance := 0, Name := "sys", Class := "misc",
    typ := 1, Crtime := 5, Snaptime := 10, ksp := 0 }

/-- Open-token state in which `sampleChainKs` already has its wrapper
allocated and cached. -/
def sampleStateCached : KState :=
  { env := ⟨[sampleChainKs]⟩, kcOpen := true, ksm := [(0, 0)],
    heap := [sampleWrapper] }

/-- Witness for C10 at the concrete cached state. -/
theorem refresh_failure_atomic_witness :
    KStat.Refresh sampleStateCached 0 none =
      (some KError.readFailed, sampleStateCached) :=
  refresh_failure_atomic sampleStateCached 0 (by decide)

/-- C9: a successful `Refresh` sets the wrapper's `Snaptime` to the
native `ks_snaptime` written by `kstat_read`; whenever the native
clock reading `t` is at least the wrapper's current `Snaptime` (the
`gethrtime` contract: the previous value was an earlier reading of the
same monotonic clock), the snapshot timestamp does not decrease. -/
theorem refresh_monotonic (s : KState) (w : Nat) (t : Int)
    (recs : List RawNamed)
    (hv : KStat.invalid s w = false)
    (hp : (s.heap.getD w kstat0).ksp < s.env.chain.length)
    (ht : (s.heap.getD w kstat0).Snaptime ≤ t) :
    (KStat.Refresh s w (some (t, recs))).1 = none ∧
    (((KStat.Refresh s w (some (t, recs))).2.heap.getD w kstat0)).Snaptime = t ∧
    (s.heap.getD w kstat0).Snaptime ≤
      (((KStat.Refresh s w (some (t, recs))).2.heap.getD w kstat0)).Snaptime := by
  have hw' : w < s.heap.length ∧ s.kcOpen = true := by
    simpa [KStat.invalid] using hv
  obtain ⟨hw, -⟩ := hw'
  simp only [KStat.Refresh, hv, Bool.false_eq_true, if_false, kstat_read]
  rw [getKs_setKs_self _ _ _ hp]
  have hwl : w < (s.heap.set w
      ({ s.heap.getD w kstat0 with Snaptime := t })).length := by simpa using hw
  rw [List.getD_eq_getElem _ _ hw] at ht
  refine ⟨rfl, ?_, ?_⟩ <;>
    simp [List.getElem?_set_self, hw, ht]

/-- Witness for C9 at the concrete cached state with native time 12. -/
theorem refresh_monotonic_witness :
    (KStat.Refresh sampleStateCached 0 (some (12, []))).1 = none ∧
    (((KStat.Refresh sampleStateCached 0
        (some (12, []))).2.heap.getD 0 kstat0)).Snaptime = 12 ∧
    (sampleStateCached.heap.getD 0 kstat0).Snaptime ≤
      (((KStat.Refresh sampleStateCached 0
          (some (12, []))).2.heap.getD 0 kstat0)).Snaptime :=
  refresh_monotonic sampleStateCached 0 12 [] (by decide) (by decide) (by decide)

/-- C8: `Close` is idempotent — after any `Close`, a second `Close`
returns success (nil) and changes nothing. -/
theorem close_idempotent (s : KState) (ok ok₂ : Bool) :
    Token.Close (Token.Close s ok).2 ok₂ = (none, (Token.Close s ok).2) := by
  cases hc : s.kcOpen <;> simp [Token.Close, hc]

/-- Witness for C8 at the concrete open state (also exercising a
failing native close on the first call). -/
theorem close_idempotent_witness :
    Token.Close (Token.Close sampleStateCached false).2 true =
      (none, (Token.Close sampleStateCached false).2) :=
  close_idempotent sampleStateCached false true

/-- C7: after `Close`, `Lookup` and `Refresh` fail with the
closed-token error without touching state, `All` returns an empty
sequence (and no error — it has no error result at all), while the
heap of previously returned wrappers is intact, so the display
operations on previously obtained descriptors and named stats return
the same strings as before the close. -/
theorem closed_token_rejection (s : KState) (ok : Bool)
    (module name : String) (inst : Int) (outcome : ReadOutcome)
    (w : Nat) (nd : Named) :
    Token.Lookup (Token.Close s ok).2 module inst name outcome =
      (none, some KError.closedToken, (Token.Close s ok).2) ∧
    KStat.Refresh (Token.Close s ok).2 w outcome =
      (some KError.closedToken, (Token.Close s ok).2) ∧
    Token.All (Token.Close s ok).2 = ([], (Token.Close s ok).2) ∧
    (Token.Close s ok).2.heap = s.heap ∧
    KStat.display ((Token.Close s ok).2.heap.getD w kstat0) =
      KStat.display (s.heap.getD w kstat0) ∧
    Named.display (Token.Close s ok).2 nd = Named.display s nd := by
  have hclosed : (Token.Close s ok).2.kcOpen = false := by
    cases hc : s.kcOpen <;> simp [Token.Close, hc]
  have hheap : (Token.Close s ok).2.heap = s.heap := by
    cases hc : s.kcOpen <;> simp [Token.Close, hc]
  refine ⟨?_, ?_, ?_, hheap, ?_, ?_⟩
  · simp [Token.Lookup, hclosed]
  · simp [KStat.Refresh, KStat.invalid, hclosed]
  · simp [Token.All, hclosed]
  · rw [hheap]
  · simp [Named.display, hheap]

/-- Witness for C7 at the concrete cached state. -/
theorem closed_token_rejection_witness :
    Token.Lookup (Token.Close sampleStateCached true).2 "cpu" 0 "sys" none =
      (none, some KError.closedToken, (Token.Close sampleStateCached true).2) ∧
    KStat.Refresh (Token.Close sampleStateCached true).2 0 none =
      (some KError.closedToken, (Token.Close sampleStateCached true).2) ∧
    Token.All (Token.Close sampleStateCached true).2 =
      ([], (Token.Close sampleStateCached true).2) ∧
    (Token.Close sampleStateCached true).2.heap = sampleStateCached.heap ∧
    KStat.display ((Token.Close sampleStateCached true).2.heap.getD 0 kstat0) =
      KStat.display (sampleStateCached.heap.getD 0 kstat0) ∧
    Named.display (Token.Close sampleStateCached true).2
        { Name := "idle", typ := 4, StringVal := [], IntVal := 0,
          UintVal := 7, kstatRef := 0 } =
      Named.display sampleStateCached
        { Name := "idle", typ := 4, StringVal := [], IntVal := 0,
          UintVal := 7, kstatRef := 0 } :=
  closed_token_rejection sampleStateCached true "cpu" "sys" 0 none 0
    { Name := "idle", typ := 4, StringVal := [], IntVal := 0,
      UintVal := 7, kstatRef := 0 }

/-- C6: when `Lookup` finds a collection it refreshes it before
returning; if that read fails, `Lookup` returns an error and no
descriptor, but the cache entry `newKStat` made for that identity is
retained, so a later `Lookup` resolving the same native identity
(here, one whose read succeeds) returns the very same cached
wrapper. -/
theorem lookup_refresh_failure_retains_cache (s : KState)
    (module name : String) (inst : Int) (p : Nat) (t : Int)
    (recs : List RawNamed)
    (hopen : s.kcOpen = true)
    (hwf : ∀ e ∈ s.ksm, e.2 < s.heap.length)
    (hfind : kstat_lookup s.env module inst name = some p) :
    Token.Lookup s module inst name none =
      (none, some KError.readFailed, (newKStat s p).2) ∧
    lookupKsm (newKStat s p).2.ksm p = some (newKStat s p).1 ∧
    (Token.Lookup (newKStat s p).2 module inst name
        (some (t, recs))).1 = some (newKStat s p).1 := by
  have henv := newKStat_env s p
  have hcached := newKStat_caches s p
  have hvalid := newKStat_valid s p hwf
  have hopen2 : (newKStat s p).2.kcOpen = true := henv.2.trans hopen
  have hinv : KStat.invalid (newKStat s p).2 (newKStat s p).1 = false :=
    invalid_false_of _ _ hvalid hopen2
  have hfail := refresh_read_failure (newKStat s p).2 (newKStat s p).1 hinv
  have hfind2 : kstat_lookup (newKStat s p).2.env module inst name = some p := by
    rw [henv.1]; exact hfind
  refine ⟨?_, hcached, ?_⟩
  · simp [Token.Lookup, hopen, hfind, hfail]
  · have hok := refresh_success_none (newKStat s p).2 (newKStat s p).1 t recs hinv
    have hhit := newKStat_cached (newKStat s p).2 p (newKStat s p).1 hcached
    simp [Token.Lookup, hopen2, hfind2, hhit, hok]

/-- Witness for C6: looking up `cpu:0:sys` on the fresh one-element
sample state with a failing first read and a succeeding second
read. -/
theorem lookup_refresh_failure_retains_cache_witness :
    Token.Lookup sampleState "cpu" 0 "sys" none =
      (none, some KError.readFailed, (newKStat sampleState 0).2) ∧
    lookupKsm (newKStat sampleState 0).2.ksm 0 =
      some (newKStat sampleState 0).1 ∧
    (Token.Lookup (newKStat sampleState 0).2 "cpu" 0 "sys"
        (some (12, []))).1 = some (newKStat sampleState 0).1 :=
  lookup_refresh_failure_retains_cache sampleState "cpu" "sys" 0 0 12 []
    (by decide) (by decide) (by decide)

/-- The structure of a finished `AllNamed` decode loop: it yields
either an error or the complete decoded list, one entry per record
index, each the decode of that record — never a partial list. -/
theorem allNamedLoop_spec (s : KState) (p w : Nat) :
    ∀ n i, (∃ e, allNamedLoop s p w i n = .error e) ∨
      (∃ l, allNamedLoop s p w i n = .ok l ∧ l.length = n ∧
        ∀ j, j < n → l[j]? = (get_nth_named s p (i + j)).bind (newNamed w)) := by
  intro n
  induction n with
  | zero =>
    intro i
    right
    exact ⟨[], rfl, rfl, fun j hj => absurd hj (Nat.not_lt_zero j)⟩
  | succ m ih =>
    intro i
    cases hg : get_nth_named s p i with
    | none =>
      left
      exact ⟨.nilNamed, by simp [allNamedLoop, hg]⟩
    | some r =>
      cases hn : newNamed w r with
      | none =>
        left
        exact ⟨.unknownType, by simp [allNamedLoop, hg, hn]⟩
      | some nd =>
        rcases ih (i + 1) with ⟨e, he⟩ | ⟨l, hl, hlen, hall⟩
        · left
          exact ⟨e, by simp [allNamedLoop, hg, hn, he]⟩
        · right
          refine ⟨nd :: l, by simp [allNamedLoop, hg, hn, hl],
                  by simp [hlen], ?_⟩
          intro j hj
          cases j with
          | zero => simp [hg, hn]
          | succ k =>
            have hk := hall k (Nat.lt_of_succ_lt_succ hj)
            have harith : i + 1 + k = i + (k + 1) := by omega
            rw [harith] at hk
            simpa using hk

/-- C5: `AllNamed` is atomic — it returns either an error or the
complete sequence, with one decoded `Named` per record of the
collection in native storage order; a partial sequence of
successfully decoded records is impossible. -/
theorem allNamed_atomic (s : KState) (w : Nat) (outcome : ReadOutcome) :
    (∃ e, (KStat.AllNamed s w outcome).1 = .error e) ∨
    (∃ l, (KStat.AllNamed s w outcome).1 = .ok l ∧
      l.length = ((KStat.AllNamed s w outcome).2.env.getKs
        (((KStat.AllNamed s w outcome).2.heap.getD w kstat0).ksp)).ks_ndata ∧
      ∀ j, j < l.length →
        l[j]? = (get_nth_named (KStat.AllNamed s w outcome).2
          (((KStat.AllNamed s w outcome).2.heap.getD w kstat0).ksp) j).bind
          (newNamed w)) := by
  cases hs : KStat.setup s w outcome with
  | mk oe s₁ =>
    cases oe with
    | some e =>
      left
      exact ⟨e, by simp [KStat.AllNamed, hs]⟩
    | none =>
      have hA : KStat.AllNamed s w outcome =
          (allNamedLoop s₁ (s₁.heap.getD w kstat0).ksp w 0
            ((s₁.env.getKs ((s₁.heap.getD w kstat0).ksp)).ks_ndata), s₁) := by
        simp [KStat.AllNamed, hs]
      rcases allNamedLoop_spec s₁ (s₁.heap.getD w kstat0).ksp w
          ((s₁.env.getKs ((s₁.heap.getD w kstat0).ksp)).ks_ndata) 0 with
        ⟨e, he⟩ | ⟨l, hl, hlen, hall⟩
      · left
        refine ⟨e, ?_⟩
        rw [hA]
        exact he
      · right
        refine ⟨l, ?_, ?_, ?_⟩
        · rw [hA]; exact hl
        · rw [hA]; exact hlen
        · intro j hj
          rw [hA]
          have hj2 : j < (s₁.env.getKs ((s₁.heap.getD w kstat0).ksp)).ks_ndata :=
            hlen ▸ hj
          have := hall j hj2
          simpa using this

/-- Witness for C5 at the concrete cached state with a failing read
outcome. -/
theorem allNamed_atomic_witness :
    (∃ e, (KStat.AllNamed sampleStateCached 0 none).1 = .error e) ∨
    (∃ l, (KStat.AllNamed sampleStateCached 0 none).1 = .ok l ∧
      l.length = ((KStat.AllNamed sampleStateCached 0 none).2.env.getKs
        (((KStat.AllNamed sampleStateCached 0
            none).2.heap.getD 0 kstat0).ksp)).ks_ndata ∧
      ∀ j, j < l.length →
        l[j]? = (get_nth_named (KStat.AllNamed sampleStateCached 0 none).2
          (((KStat.AllNamed sampleStateCached 0
              none).2.heap.getD 0 kstat0).ksp) j).bind (newNamed 0)) :=
  allNamed_atomic sampleStateCached 0 none

end KstatGo
